import Mathlib

/-!
Verification of the QL Tracker background telemetry pipeline.

Shallow embedding of the pipeline's core components, translated from the
Python sources:
  * `EventQueue` (src/ql_tracker/services/queue/event_queue.py)
  * `LogWorkerService` (src/ql_tracker/services/worker/log_worker.py)
  * `BackgroundExecutorService` (src/ql_tracker/services/background_executor/background_executor.py)
  * `create_backend` / `StorageService` (src/ql_tracker/services/storage/)
  * `JSONLStorageBackend` (src/ql_tracker/services/storage/json_storage.py)
  * `create_log_event` (src/ql_tracker/schema/log_schema.py)
  * the `track` decorator's `sync_wrapper` (src/ql_tracker/tracker.py)

Mutable Python objects become explicit state records, queue contents become
lists (head = front of the queue), exceptions become `Except` / explicit
outcome types, and the wall clock / thread scheduler is abstracted away:
every definition below models the single-consumer, deterministic view of
one operation at a time, which is the granularity at which the claims are
stated.
-/

/-! ## EventQueue (event_queue.py)

The Python class wraps `queue.Queue`; its observable state is the buffered
events (FIFO, head first), the lifetime `_event_count`, and the boolean
`_new_event_signal` (a `threading.Event`). -/

variable {α : Type}

/-- State of an `EventQueue` instance: the underlying `queue.Queue` buffer
(front of the queue first), the cumulative `_event_count`, and whether the
`_new_event_signal` `threading.Event` is set. -/
structure EventQueueState (α : Type) where
  buffer : List α
  eventCount : Nat
  newEventSignal : Bool
  deriving DecidableEq

/-- `EventQueue.put`: reads `qsize()` under the lock, increments
`_event_count`, appends the event at the tail, and sets the signal when the
size read before the insertion is at least 10
(`if current_size >= 10: self._new_event_signal.set()`). -/
def EventQueue.put (s : EventQueueState α) (event : α) : EventQueueState α :=
  let currentSize := s.buffer.length
  { buffer := s.buffer ++ [event]
    eventCount := s.eventCount + 1
    newEventSignal := if currentSize ≥ 10 then true else s.newEventSignal }

/-- The underlying `self._queue.get(timeout=timeout)` call on a
`queue.Queue`: a negative timeout raises `ValueError`; otherwise the head is
popped when present and `Empty` is raised when nothing arrives within the
timeout (deterministically: when the buffer is empty).  Timeouts are modelled
as integers since only their sign and zero/non-zero distinction matter to a
deterministic single-thread view. -/
def rawQueueGet (buffer : List α) (timeout : Int) : Except String (α × List α) :=
  if timeout < 0 then
    Except.error "ValueError: timeout must be a non-negative number"
  else
    match buffer with
    | [] => Except.error "Empty"
    | e :: rest => Except.ok (e, rest)

/-- `EventQueue.get`: `try: return self._queue.get(timeout=timeout) except:
return None` — every exception of the underlying operation is swallowed and
`None` is returned, leaving the buffer as it was. -/
def EventQueue.get (buffer : List α) (timeout : Int) : Option α × List α :=
  match rawQueueGet buffer timeout with
  | Except.ok (e, rest) => (some e, rest)
  | Except.error _ => (none, buffer)

/-- The `for _ in range(max_size - 1)` loop of `EventQueue.get_batch`: pop
with `timeout=0`, stop at the first `None`. -/
def EventQueue.getBatchLoop (buffer : List α) : Nat → List α × List α
  | 0 => ([], buffer)
  | n + 1 =>
    match EventQueue.get buffer 0 with
    | (none, rest) => ([], rest)
    | (some e, rest) =>
      let more := EventQueue.getBatchLoop rest n
      (e :: more.1, more.2)

/-- `EventQueue.get_batch`: first `get` honours `timeout`; on `None` the
empty list is returned; otherwise up to `max_size - 1` further events are
popped without blocking.  `max_size` is a Python `int`, so it is modelled as
`Int`; `range(max_size - 1)` is empty when `max_size - 1 ≤ 0`. -/
def EventQueue.get_batch (buffer : List α) (max_size : Int) (timeout : Int) :
    List α × List α :=
  match EventQueue.get buffer timeout with
  | (none, rest) => ([], rest)
  | (some e, rest) =>
    let more := EventQueue.getBatchLoop rest (max_size - 1).toNat
    (e :: more.1, more.2)

theorem EventQueue.getBatchLoop_eq (buffer : List α) (n : Nat) :
    EventQueue.getBatchLoop buffer n = (buffer.take n, buffer.drop n) := by
  induction n generalizing buffer with
  | zero => simp [EventQueue.getBatchLoop]
  | succ n ih =>
    cases buffer with
    | nil => simp [EventQueue.getBatchLoop, EventQueue.get, rawQueueGet]
    | cons e rest =>
      simp [EventQueue.getBatchLoop, EventQueue.get, rawQueueGet, ih]

theorem EventQueue.get_batch_eq_take_drop (buffer : List α) (max_size timeout : Int)
    (hm : 1 ≤ max_size) (ht : 0 ≤ timeout) :
    EventQueue.get_batch buffer max_size timeout =
      (buffer.take max_size.toNat, buffer.drop max_size.toNat) := by
  have hsz : max_size.toNat = (max_size - 1).toNat + 1 := by omega
  cases buffer with
  | nil =>
    simp [EventQueue.get_batch, EventQueue.get, rawQueueGet, not_lt.mpr ht]
  | cons e rest =>
    simp only [EventQueue.get_batch, EventQueue.get, rawQueueGet, if_neg (not_lt.mpr ht),
      EventQueue.getBatchLoop_eq, hsz, List.take_succ_cons, List.drop_succ_cons]

/-- C2, as stated, is false: inserting the 10th event (resulting depth
exactly 10) does not set the wake signal, because `put` compares the size
read before the insertion against the threshold. -/
theorem C2_counterexample :
    ¬ (10 ≤ (EventQueue.put
          (⟨[0, 1, 2, 3, 4, 5, 6, 7, 8], 9, false⟩ : EventQueueState Nat) 9).buffer.length →
        (EventQueue.put
          (⟨[0, 1, 2, 3, 4, 5, 6, 7, 8], 9, false⟩ : EventQueueState Nat) 9).newEventSignal = true) := by
  decide

/-- C2 (amended): for every call to `EventQueue.put`, the wake signal becomes
set exactly when the queue depth read immediately before the insertion is at
least 10 — equivalently, when the resulting depth is at least 11; inserting
into a queue whose resulting depth is 10 or below leaves the signal
unchanged. -/
theorem C2_put_signal_threshold (s : EventQueueState α) (e : α) :
    (EventQueue.put s e).newEventSignal =
      (if 11 ≤ (EventQueue.put s e).buffer.length then true else s.newEventSignal) := by
  simp only [EventQueue.put, List.length_append, List.length_cons, List.length_nil]
  rcases le_or_lt 10 s.buffer.length with h | h
  · rw [if_pos h, if_pos (by omega)]
  · rw [if_neg (by omega), if_neg (by omega)]

/-- C4: for every queue state and `max_size ≥ 1` (with a valid timeout),
`get_batch` returns the empty list when no element is available (empty
buffer); otherwise it returns the first available element followed by the
non-blocking pops, at most `max_size` in total, preserving FIFO order — the
result is exactly the length-`max_size` front of the queue.  In particular
`max_size = 10` on a 5-element queue returns all 5 in insertion order. -/
theorem C4_get_batch_fifo (buffer : List α) (max_size timeout : Int)
    (hm : 1 ≤ max_size) (ht : 0 ≤ timeout) :
    (EventQueue.get_batch buffer max_size timeout).1 = buffer.take max_size.toNat ∧
    (EventQueue.get_batch buffer max_size timeout).2 = buffer.drop max_size.toNat ∧
    (buffer = [] → (EventQueue.get_batch buffer max_size timeout).1 = []) ∧
    (EventQueue.get_batch buffer max_size timeout).1.length ≤ max_size.toNat := by
  rw [EventQueue.get_batch_eq_take_drop buffer max_size timeout hm ht]
  exact ⟨rfl, rfl, fun h => by simp [h], List.length_take_le max_size.toNat buffer⟩

theorem C4_get_batch_fifo_witness :
    (EventQueue.get_batch ([1, 2, 3, 4, 5] : List Nat) 10 1).1 = [1, 2, 3, 4, 5] :=
  (C4_get_batch_fifo [1, 2, 3, 4, 5] 10 1 (by decide) (by decide)).1.trans (by decide)

/-- C9: calling `get_batch` with `max_size ≤ 0` on a non-empty queue (valid
timeout) still dequeues and returns exactly the head: `range(max_size - 1)`
is empty, so only the unconditional first pop happens and the cap is not
honoured for non-positive `max_size`. -/
theorem C9_get_batch_nonpositive (e : α) (rest : List α) (max_size timeout : Int)
    (hm : max_size ≤ 0) (ht : 0 ≤ timeout) :
    EventQueue.get_batch (e :: rest) max_size timeout = ([e], rest) := by
  have hz : (max_size - 1).toNat = 0 := by omega
  simp [EventQueue.get_batch, EventQueue.get, rawQueueGet, not_lt.mpr ht, hz,
    EventQueue.getBatchLoop]

theorem C9_get_batch_nonpositive_witness :
    EventQueue.get_batch ([7, 8] : List Nat) 0 1 = ([7], [8]) :=
  C9_get_batch_nonpositive 7 [8] 0 1 (by decide) (by decide)

/-- C10: `EventQueue.get` never raises: it yields `none` exactly when the
underlying `queue.Queue.get` raises (timeout elapsed or any other error,
e.g. `ValueError` on a negative timeout), so the caller cannot distinguish
the two; in particular for every negative timeout the error is swallowed and
`(none, unchanged buffer)` is returned, identical to an elapsed timeout on an
empty queue. -/
theorem C10_get_never_raises (buffer : List α) (timeout : Int) :
    ((EventQueue.get buffer timeout).1 = none ↔
        ∃ msg, rawQueueGet buffer timeout = Except.error msg) ∧
    (timeout < 0 → EventQueue.get buffer timeout = (none, buffer)) ∧
    (EventQueue.get buffer (-1)).1 = (EventQueue.get ([] : List α) 0).1 := by
  refine ⟨?_, ?_, ?_⟩
  · unfold EventQueue.get
    cases h : rawQueueGet buffer timeout with
    | ok p => simp
    | error msg => simp
  · intro hneg
    simp [EventQueue.get, rawQueueGet, hneg]
  · simp [EventQueue.get, rawQueueGet]

theorem C10_get_never_raises_witness :
    EventQueue.get ([5] : List Nat) (-1) = (none, [5]) :=
  (C10_get_never_raises [5] (-1)).2.1 (by decide)

/-! ## LogWorkerService (log_worker.py)

`_process_events` drains up to 100 events with `get_batch(max_size=100,
timeout=0)` and, when the batch is non-empty, calls
`StorageService.store(events)` inside a `try`/`except` that catches every
exception.  One iteration of `_run` waits on the wake signal, clears it, and
invokes `_process_events` inside a second `try`/`except`, incrementing
`_processing_cycles` when no exception escaped. -/

/-- Observable state of a `LogWorkerService` together with its queue: the
queue buffer, the list of batches passed to `StorageService.store` so far
(in call order, failed calls included), `_total_events_processed` and
`_processing_cycles`.  The storage backend's behaviour is a parameter
`store : List α → Except String Unit` - `Except.error` models `store`
raising. -/
structure WorkerState (α : Type) where
  queue : List α
  storeCalls : List (List α)
  totalEventsProcessed : Nat
  processingCycles : Nat
  deriving DecidableEq

/-- `LogWorkerService._process_events`: `get_batch(max_size=100, timeout=0)`
removes the batch from the queue; if it is non-empty, `store` is invoked on
it; an exception from `store` is caught by the `except` clause (the batch is
neither re-queued nor retried, and `_total_events_processed` is not
incremented because the increment sits after the `store` call). -/
def LogWorkerService.processEvents (store : List α → Except String Unit)
    (s : WorkerState α) : WorkerState α :=
  let drained := EventQueue.get_batch s.queue 100 0
  let events := drained.1
  if events.isEmpty then
    { s with queue := drained.2 }
  else
    match store events with
    | Except.ok _ =>
      { queue := drained.2
        storeCalls := s.storeCalls ++ [events]
        totalEventsProcessed := s.totalEventsProcessed + events.length
        processingCycles := s.processingCycles }
    | Except.error _ =>
      { queue := drained.2
        storeCalls := s.storeCalls ++ [events]
        totalEventsProcessed := s.totalEventsProcessed
        processingCycles := s.processingCycles }

/-- One iteration of `LogWorkerService._run` after the wait on the wake
signal: `_process_events()` runs (it never lets a `store` exception escape,
so the outer `except` of `_run` is not reached on a storage failure) and
`_processing_cycles` is incremented. -/
def LogWorkerService.runCycle (store : List α → Except String Unit)
    (s : WorkerState α) : WorkerState α :=
  let s' := LogWorkerService.processEvents store s
  { s' with processingCycles := s'.processingCycles + 1 }

/-- `k` further iterations of the `_run` loop. -/
def LogWorkerService.runCycles (store : List α → Except String Unit)
    (s : WorkerState α) : Nat → WorkerState α
  | 0 => s
  | k + 1 => LogWorkerService.runCycles store (LogWorkerService.runCycle store s) k

theorem LogWorkerService.get_batch_100 (q : List α) :
    EventQueue.get_batch q 100 0 = (q.take 100, q.drop 100) := by
  simpa using EventQueue.get_batch_eq_take_drop q 100 0 (by decide) (by decide)

theorem LogWorkerService.processEvents_queue (store : List α → Except String Unit)
    (s : WorkerState α) :
    (LogWorkerService.processEvents store s).queue = s.queue.drop 100 := by
  unfold LogWorkerService.processEvents
  rw [LogWorkerService.get_batch_100]
  by_cases he : (s.queue.take 100).isEmpty
  · simp [he]
  · rcases h : store (s.queue.take 100) with u | msg <;> simp [he, h]

theorem LogWorkerService.processEvents_storeCalls (store : List α → Except String Unit)
    (s : WorkerState α) :
    (LogWorkerService.processEvents store s).storeCalls = s.storeCalls ∨
    (LogWorkerService.processEvents store s).storeCalls
      = s.storeCalls ++ [s.queue.take 100] := by
  unfold LogWorkerService.processEvents
  rw [LogWorkerService.get_batch_100]
  by_cases he : (s.queue.take 100).isEmpty
  · left; simp [he]
  · rcases h : store (s.queue.take 100) with u | msg
    · right; simp [he, h]
    · right; simp [he, h]

theorem LogWorkerService.mem_drop_append_single {β : Type} (l : List β) (x : β)
    (m : Nat) (b : β) (hb : b ∈ (l ++ [x]).drop m) : b ∈ l.drop m ∨ b = x := by
  rw [List.drop_append_eq_append_drop] at hb
  rcases List.mem_append.mp hb with h | h
  · exact Or.inl h
  · right
    have hx : b ∈ [x] := (List.drop_sublist _ _).mem h
    simpa using hx

theorem LogWorkerService.runCycles_contained (store : List α → Except String Unit)
    (e : α) (m : Nat) (k : Nat) :
    ∀ s : WorkerState α, e ∉ s.queue → (∀ b ∈ s.storeCalls.drop m, e ∉ b) →
      e ∉ (LogWorkerService.runCycles store s k).queue ∧
      ∀ b ∈ (LogWorkerService.runCycles store s k).storeCalls.drop m, e ∉ b := by
  induction k with
  | zero => exact fun s hq hc => ⟨hq, hc⟩
  | succ k ih =>
    intro s hq hc
    have hq' : e ∉ (LogWorkerService.runCycle store s).queue := by
      have : (LogWorkerService.runCycle store s).queue
          = (LogWorkerService.processEvents store s).queue := rfl
      rw [this, LogWorkerService.processEvents_queue]
      exact fun h => hq ((List.drop_sublist 100 s.queue).mem h)
    have hc' : ∀ b ∈ (LogWorkerService.runCycle store s).storeCalls.drop m, e ∉ b := by
      intro b hb
      have hbp : b ∈ (LogWorkerService.processEvents store s).storeCalls.drop m := hb
      rcases LogWorkerService.processEvents_storeCalls store s with hcalls | hcalls
      · rw [hcalls] at hbp
        exact hc b hbp
      · rw [hcalls] at hbp
        rcases LogWorkerService.mem_drop_append_single _ _ _ _ hbp with h1 | h1
        · exact hc b h1
        · exact h1 ▸ fun hmem => hq ((List.take_sublist 100 s.queue).mem hmem)
    exact ih (LogWorkerService.runCycle store s) hq' hc'

/-- C3: when `StorageService.store` raises on the drained batch, the worker
contains the failure: the cycle completes (the exception is caught inside
`_process_events`, `_processing_cycles` is still incremented by `_run`),
`_total_events_processed` is not incremented, the batch has been removed from
the queue and is never re-inserted, and — provided the failed events are not
duplicated further back in the queue — no later cycle ever holds them in the
queue or passes them to `store` again (at-most-once delivery, loss on store
failure). -/
theorem C3_store_failure_contained (store : List α → Except String Unit)
    (s : WorkerState α) (e : α) (msg : String)
    (hfail : store (s.queue.take 100) = Except.error msg)
    (he : e ∈ s.queue.take 100)
    (hout : e ∉ s.queue.drop 100) :
    (LogWorkerService.runCycle store s).queue = s.queue.drop 100 ∧
    (LogWorkerService.runCycle store s).processingCycles = s.processingCycles + 1 ∧
    (LogWorkerService.runCycle store s).totalEventsProcessed = s.totalEventsProcessed ∧
    (∀ k, e ∉ (LogWorkerService.runCycles store (LogWorkerService.runCycle store s) k).queue) ∧
    (∀ k, ∀ b ∈ (LogWorkerService.runCycles store (LogWorkerService.runCycle store s) k).storeCalls.drop
        (LogWorkerService.runCycle store s).storeCalls.length, e ∉ b) := by
  have hbatch : ¬ (s.queue.take 100).isEmpty := by
    intro hemp
    rw [List.isEmpty_iff] at hemp
    rw [hemp] at he
    exact (List.not_mem_nil e) he
  have hpe : LogWorkerService.processEvents store s =
      { queue := s.queue.drop 100
        storeCalls := s.storeCalls ++ [s.queue.take 100]
        totalEventsProcessed := s.totalEventsProcessed
        processingCycles := s.processingCycles } := by
    unfold LogWorkerService.processEvents
    rw [LogWorkerService.get_batch_100]
    simp [hbatch, hfail]
  have hq1 : (LogWorkerService.runCycle store s).queue = s.queue.drop 100 := by
    have : (LogWorkerService.runCycle store s).queue
        = (LogWorkerService.processEvents store s).queue := rfl
    rw [this, hpe]
  have hnotin : e ∉ (LogWorkerService.runCycle store s).queue := by
    rw [hq1]; exact hout
  have hvac : ∀ b ∈ (LogWorkerService.runCycle store s).storeCalls.drop
      (LogWorkerService.runCycle store s).storeCalls.length, e ∉ b := by
    simp
  refine ⟨hq1, ?_, ?_, ?_, ?_⟩
  · have : (LogWorkerService.runCycle store s).processingCycles
        = (LogWorkerService.processEvents store s).processingCycles + 1 := rfl
    rw [this, hpe]
  · have : (LogWorkerService.runCycle store s).totalEventsProcessed
        = (LogWorkerService.processEvents store s).totalEventsProcessed := rfl
    rw [this, hpe]
  · intro k
    exact (LogWorkerService.runCycles_contained store e _ k
      (LogWorkerService.runCycle store s) hnotin hvac).1
  · intro k
    exact (LogWorkerService.runCycles_contained store e _ k
      (LogWorkerService.runCycle store s) hnotin hvac).2

theorem C3_store_failure_contained_witness :
    (LogWorkerService.runCycle (fun _ => Except.error "boom")
      (⟨[1, 2], [], 0, 0⟩ : WorkerState Nat)).queue = [] := by
  have h := C3_store_failure_contained (fun _ => Except.error "boom")
    (⟨[1, 2], [], 0, 0⟩ : WorkerState Nat) 1 "boom"
    rfl (by decide) (by decide)
  simpa using h.1

/-! ## BackgroundExecutorService (background_executor.py)

Services are duck-typed: `start_all_services` calls `service.start()` when
the attribute exists, inside a per-service `try`/`except`;
`stop_all_services` iterates `reversed(self._services)` and calls
`service.stop()` when present, else `service.force_flush()` when present,
again isolating exceptions per service.  Both are guarded by the `_running`
flag. -/

/-- A registered service, described by the capabilities the executor
introspects (`hasattr(service, 'start')` etc.) and by whether each method
raises when invoked. -/
structure Service where
  id : Nat
  hasStart : Bool
  startRaises : Bool
  hasStop : Bool
  stopRaises : Bool
  hasForceFlush : Bool
  forceFlushRaises : Bool
  deriving DecidableEq

/-- Observable side effects of the executor: method invocations on services
and the `print` of a caught per-service exception. -/
inductive LifecycleCall where
  | startCalled (id : Nat)
  | stopCalled (id : Nat)
  | forceFlushCalled (id : Nat)
  | errorReported (id : Nat)
  deriving DecidableEq

/-- The body of the per-service `try` block in `start_all_services`: invoke
`start` when present; a raise is caught and reported by the `except`
clause. -/
def startService (svc : Service) : List LifecycleCall :=
  if svc.hasStart then
    if svc.startRaises then
      [LifecycleCall.startCalled svc.id, LifecycleCall.errorReported svc.id]
    else
      [LifecycleCall.startCalled svc.id]
  else []

/-- The body of the per-service `try` block in `stop_all_services`: invoke
`stop` when present, else `force_flush` when present; a raise is caught and
reported. -/
def stopService (svc : Service) : List LifecycleCall :=
  if svc.hasStop then
    if svc.stopRaises then
      [LifecycleCall.stopCalled svc.id, LifecycleCall.errorReported svc.id]
    else
      [LifecycleCall.stopCalled svc.id]
  else if svc.hasForceFlush then
    if svc.forceFlushRaises then
      [LifecycleCall.forceFlushCalled svc.id, LifecycleCall.errorReported svc.id]
    else
      [LifecycleCall.forceFlushCalled svc.id]
  else []

/-- `BackgroundExecutorService.start_all_services`: a no-op when `_running`
is already set; otherwise sets `_running` and iterates the registry in
registration order.  Returns the new `_running` flag and the emitted trace. -/
def BackgroundExecutorService.start_all_services (running : Bool)
    (services : List Service) : Bool × List LifecycleCall :=
  if running then (running, [])
  else (true, (services.map startService).flatten)

/-- `BackgroundExecutorService.stop_all_services`: a no-op when `_running`
is clear; otherwise clears `_running` and iterates the registry in reverse
registration order. -/
def BackgroundExecutorService.stop_all_services (running : Bool)
    (services : List Service) : Bool × List LifecycleCall :=
  if running then (false, (services.reverse.map stopService).flatten)
  else (running, [])

/-- ids of the `start` invocations in a trace, in order. -/
def startInvocations (trace : List LifecycleCall) : List Nat :=
  trace.filterMap fun c =>
    match c with
    | LifecycleCall.startCalled i => some i
    | _ => none

/-- ids of the `stop` / `force_flush` invocations in a trace, in order. -/
def stopInvocations (trace : List LifecycleCall) : List Nat :=
  trace.filterMap fun c =>
    match c with
    | LifecycleCall.stopCalled i => some i
    | LifecycleCall.forceFlushCalled i => some i
    | _ => none

theorem startInvocations_startService (svc : Service) :
    startInvocations (startService svc) = if svc.hasStart then [svc.id] else [] := by
  rcases svc with ⟨i, hs, sr, hp, pr, hf, fr⟩
  cases hs <;> cases sr <;> rfl

theorem stopInvocations_stopService (svc : Service) :
    stopInvocations (stopService svc)
      = if svc.hasStop || svc.hasForceFlush then [svc.id] else [] := by
  rcases svc with ⟨i, hs, sr, hp, pr, hf, fr⟩
  cases hp <;> cases pr <;> cases hf <;> cases fr <;> rfl

theorem startInvocations_append (t₁ t₂ : List LifecycleCall) :
    startInvocations (t₁ ++ t₂) = startInvocations t₁ ++ startInvocations t₂ :=
  List.filterMap_append t₁ t₂ _

theorem stopInvocations_append (t₁ t₂ : List LifecycleCall) :
    stopInvocations (t₁ ++ t₂) = stopInvocations t₁ ++ stopInvocations t₂ :=
  List.filterMap_append t₁ t₂ _

/-- C5: on a manager that is not yet running, `start_all_services` invokes
`start` on exactly the services that have one, in registration order —
whether or not any of them raises (the raise is caught per service, so a
failing service never prevents `start` on the remaining ones); on a running
manager, `stop_all_services` invokes `stop` (or `force_flush` when `stop` is
absent) on exactly the services that have either, in strictly reverse
registration order, with the same isolate-and-continue policy. -/
theorem C5_lifecycle_order (services : List Service) :
    startInvocations (BackgroundExecutorService.start_all_services false services).2
      = (services.filter (fun s => s.hasStart)).map (fun s => s.id) ∧
    stopInvocations (BackgroundExecutorService.stop_all_services true services).2
      = (((services.filter (fun s => s.hasStop || s.hasForceFlush)).map
          (fun s => s.id)).reverse) := by
  constructor
  · show startInvocations (services.map startService).flatten = _
    induction services with
    | nil => rfl
    | cons svc rest ih =>
      rw [List.map_cons, List.flatten_cons, startInvocations_append, ih,
        startInvocations_startService]
      by_cases h : svc.hasStart <;> simp [h]
  · show stopInvocations (services.reverse.map stopService).flatten = _
    rw [← List.map_reverse, ← List.filter_reverse]
    induction services.reverse with
    | nil => rfl
    | cons svc rest ih =>
      rw [List.map_cons, List.flatten_cons, stopInvocations_append, ih,
        stopInvocations_stopService]
      by_cases h : svc.hasStop || svc.hasForceFlush <;> simp [h]

/-! ## Storage backend selection (create_backend.py, storage_service.py)

`create_backend` dispatches on `backend_type.lower()`: `"jsonl"` builds a
`JSONLStorageBackend(output_path=...)`, `"remote"` builds a
`RemoteStorageBackend(network_request=kwargs["network_request"],
endpoint=kwargs.get("endpoint", "logs/batch"))`, anything else raises
`ValueError(f"Unsupported storage backend: {backend_type}")`.
`StorageService.__init__` calls `create_backend` (and then
`backend.initialize()`), so an unknown discriminator raises during
construction, before any `store` call can happen. -/

/-- Python's `str.lower()` (`String.toLower` is kept out because its
`mapAux` does not reduce in the kernel; this is the same character map). -/
def pyLower (s : String) : String := String.mk (s.data.map Char.toLower)

/-- The two constructible storage backends. -/
inductive StorageBackend where
  | jsonl (output_path : String)
  | remote (endpoint : String)
  deriving DecidableEq

/-- The `**kwargs` that `StorageService.__init__` forwards to
`create_backend`: an optional `output_path`, whether a `network_request`
client was passed, and an optional `endpoint`. -/
structure BackendKwargs where
  output_path : Option String
  network_request : Bool
  endpoint : Option String
  deriving DecidableEq

/-- `create_backend(backend_type, **kwargs)`: dispatch on
`backend_type.lower()`; unknown discriminators raise `ValueError` (and a
missing required kwarg raises `TypeError`/`KeyError` inside the known
branches). -/
def create_backend (backend_type : String) (kwargs : BackendKwargs) :
    Except String StorageBackend :=
  if pyLower backend_type = "jsonl" then
    match kwargs.output_path with
    | some p => Except.ok (StorageBackend.jsonl p)
    | none => Except.error "TypeError: missing required argument output_path"
  else if pyLower backend_type = "remote" then
    if kwargs.network_request then
      Except.ok (StorageBackend.remote (kwargs.endpoint.getD "logs/batch"))
    else
      Except.error "KeyError: network_request"
  else
    Except.error ("Unsupported storage backend: " ++ backend_type)

/-- A constructed `StorageService`: `backend_type` plus the owned backend. -/
structure StorageService where
  backend_type : String
  backend : StorageBackend
  deriving DecidableEq

/-- `StorageService.__init__`: calls `create_backend` eagerly (then the
backend's directory-creating `initialize`, which has no observable state
here), so a bad discriminator fails at construction time. -/
def StorageService.construct (backend_type : String) (kwargs : BackendKwargs) :
    Except String StorageService :=
  match create_backend backend_type kwargs with
  | Except.ok b => Except.ok { backend_type := backend_type, backend := b }
  | Except.error e => Except.error e

/-- C6, as stated, is false: the discriminator `"local-file"` does not
select the append-only file backend — it raises `ValueError` eagerly; the
file backend's discriminator is `"jsonl"`. -/
theorem C6_counterexample :
    create_backend "local-file"
        { output_path := some "out.jsonl", network_request := false, endpoint := none }
      = Except.error "Unsupported storage backend: local-file" ∧
    ¬ ∃ p, create_backend "local-file"
        { output_path := some "out.jsonl", network_request := false, endpoint := none }
      = Except.ok (StorageBackend.jsonl p) := by
  constructor
  · rfl
  · rintro ⟨p, hp⟩
    rw [show create_backend "local-file"
        { output_path := some "out.jsonl", network_request := false, endpoint := none }
      = Except.error "Unsupported storage backend: local-file" from rfl] at hp
    exact Except.noConfusion hp

/-- C6 (amended): backend selection at construction time is by the string
discriminator, compared case-insensitively: `"jsonl"` yields the append-only
JSONL file backend, `"remote"` yields the remote batch backend, and any
other discriminator makes `StorageService.__init__` raise eagerly (the
`create_backend` call inside the constructor fails before any `store` call
is possible). -/
theorem C6_backend_selection (backend_type : String) (kwargs : BackendKwargs)
    (p : String) (hp : kwargs.output_path = some p)
    (hn : kwargs.network_request = true) :
    (pyLower backend_type = "jsonl" →
      create_backend backend_type kwargs = Except.ok (StorageBackend.jsonl p)) ∧
    (pyLower backend_type = "remote" →
      create_backend backend_type kwargs
        = Except.ok (StorageBackend.remote (kwargs.endpoint.getD "logs/batch"))) ∧
    (pyLower backend_type ≠ "jsonl" → pyLower backend_type ≠ "remote" →
      StorageService.construct backend_type kwargs
        = Except.error ("Unsupported storage backend: " ++ backend_type)) := by
  refine ⟨fun hj => ?_, fun hr => ?_, fun hj hr => ?_⟩
  · simp [create_backend, hj, hp]
  · have : pyLower backend_type ≠ "jsonl" := by rw [hr]; decide
    simp [create_backend, this, hr, hn]
  · simp [StorageService.construct, create_backend, hj, hr]

theorem C6_backend_selection_witness :
    StorageService.construct "local-file"
        { output_path := some "out.jsonl", network_request := true, endpoint := none }
      = Except.error "Unsupported storage backend: local-file" :=
  (C6_backend_selection "local-file"
      { output_path := some "out.jsonl", network_request := true, endpoint := none }
      "out.jsonl" rfl rfl).2.2 (by decide) (by decide)

/-! ## JSONL file backend (json_storage.py)

`JSONLStorageBackend.store` opens `output_path` in mode `"a"` (append) and
writes `json.dumps(event, ensure_ascii=False) + "\n"` for each event of the
batch.  The file is modelled as its character content (a `List Char`);
events are modelled as JSON values and `json.dumps` is translated including
Python's default separators (`", "`, `": "`) and its string-escape table. -/

/-- A lowercase hexadecimal digit (also the decimal digits used by `str`). -/
def hexDigit (n : Nat) : Char :=
  match n with
  | 0 => '0' | 1 => '1' | 2 => '2' | 3 => '3' | 4 => '4'
  | 5 => '5' | 6 => '6' | 7 => '7' | 8 => '8' | 9 => '9'
  | 10 => 'a' | 11 => 'b' | 12 => 'c' | 13 => 'd' | 14 => 'e' | _ => 'f'

/-- Digits of `n` in base 10, most significant first, prepended to `acc`;
fuelled recursion (any fuel ≥ number of digits is enough). -/
def natToDigits : Nat → Nat → List Char → List Char
  | 0, _, acc => acc
  | fuel + 1, n, acc =>
    if n = 0 then acc else natToDigits fuel (n / 10) (hexDigit (n % 10) :: acc)

/-- Python's `str` of a non-negative integer. -/
def natRepr (n : Nat) : List Char := if n = 0 then ['0'] else natToDigits n n []

/-- Python's `str` of an integer. -/
def intRepr (i : Int) : List Char :=
  if i < 0 then '-' :: natRepr i.natAbs else natRepr i.natAbs

/-- The `json` encoder's escape table for one character inside a JSON string
(with `ensure_ascii=False`): the named two-character escapes, `\u00XX` for
the remaining control characters, everything else verbatim. -/
def escapeChar (c : Char) : List Char :=
  if c = '"' then ['\\', '"']
  else if c = '\\' then ['\\', '\\']
  else if c = '\n' then ['\\', 'n']
  else if c = '\r' then ['\\', 'r']
  else if c = '\t' then ['\\', 't']
  else if c.toNat = 8 then ['\\', 'b']
  else if c.toNat = 12 then ['\\', 'f']
  else if c.toNat < 32 then
    ['\\', 'u', '0', '0', hexDigit (c.toNat / 16), hexDigit (c.toNat % 16)]
  else [c]

/-- Escape every character of a JSON string's content. -/
def escapeString (s : List Char) : List Char := (s.map escapeChar).flatten

/-- `", ".join(parts)` — `json.dumps`'s default item separator. -/
def joinCommaSep : List (List Char) → List Char
  | [] => []
  | [p] => p
  | p :: q :: rest => p ++ ',' :: ' ' :: joinCommaSep (q :: rest)

/-- The opening brace character of a JSON object. -/
def lbrace : Char := Char.ofNat 123

/-- The closing brace character of a JSON object. -/
def rbrace : Char := Char.ofNat 125

/-- JSON values — the payload domain of the serialized events (Python dicts,
lists, strings, integers, booleans and `None`). -/
inductive JValue where
  | null
  | bool (b : Bool)
  | num (n : Int)
  | str (s : List Char)
  | arr (elems : List JValue)
  | obj (fields : List (List Char × JValue))

/-- `json.dumps(v, ensure_ascii=False)` with the default separators
`", "` and `": "`. -/
def dumps : JValue → List Char
  | JValue.null => ['n', 'u', 'l', 'l']
  | JValue.bool true => ['t', 'r', 'u', 'e']
  | JValue.bool false => ['f', 'a', 'l', 's', 'e']
  | JValue.num n => intRepr n
  | JValue.str s => '"' :: escapeString s ++ ['"']
  | JValue.arr elems => '[' :: joinCommaSep (elems.attach.map fun x => dumps x.1) ++ [']']
  | JValue.obj fields =>
    lbrace :: joinCommaSep (fields.attach.map fun x =>
      '"' :: escapeString x.1.1 ++ '"' :: ':' :: ' ' :: dumps x.1.2) ++ [rbrace]
termination_by v => sizeOf v
decreasing_by
  · have := List.sizeOf_lt_of_mem x.2
    simp only [JValue.arr.sizeOf_spec]
    omega
  · rcases x with ⟨⟨k, v⟩, hx⟩
    have := List.sizeOf_lt_of_mem hx
    simp only [JValue.obj.sizeOf_spec, Prod.mk.sizeOf_spec] at *
    omega

theorem hexDigit_ne_newline (n : Nat) : hexDigit n ≠ '\n' := by
  unfold hexDigit
  split <;> decide

theorem natToDigits_no_newline (fuel : Nat) :
    ∀ (n : Nat) (acc : List Char), '\n' ∉ acc → '\n' ∉ natToDigits fuel n acc := by
  induction fuel with
  | zero => exact fun n acc hacc => hacc
  | succ fuel ih =>
    intro n acc hacc
    unfold natToDigits
    by_cases h : n = 0
    · rw [if_pos h]; exact hacc
    · rw [if_neg h]
      apply ih
      intro hmem
      rcases List.mem_cons.mp hmem with h1 | h1
      · exact hexDigit_ne_newline _ h1.symm
      · exact hacc h1

theorem natRepr_no_newline (n : Nat) : '\n' ∉ natRepr n := by
  unfold natRepr
  by_cases h : n = 0
  · rw [if_pos h]; decide
  · rw [if_neg h]; exact natToDigits_no_newline n n [] (by decide)

theorem intRepr_no_newline (i : Int) : '\n' ∉ intRepr i := by
  unfold intRepr
  by_cases h : i < 0
  · rw [if_pos h]
    intro hmem
    rcases List.mem_cons.mp hmem with h1 | h1
    · exact absurd h1 (by decide)
    · exact natRepr_no_newline _ h1
  · rw [if_neg h]; exact natRepr_no_newline _

theorem escapeChar_no_newline (c : Char) : '\n' ∉ escapeChar c := by
  unfold escapeChar
  split_ifs with h1 h2 h3 h4 h5 h6 h7 h8
  · decide
  · decide
  · decide
  · decide
  · decide
  · decide
  · decide
  · intro hmem
    simp only [List.mem_cons, List.not_mem_nil, or_false] at hmem
    rcases hmem with h | h | h | h | h | h
    · exact absurd h (by decide)
    · exact absurd h (by decide)
    · exact absurd h (by decide)
    · exact absurd h (by decide)
    · exact hexDigit_ne_newline _ h.symm
    · exact hexDigit_ne_newline _ h.symm
  · intro hmem
    exact h3 ((List.mem_singleton.mp hmem).symm)

theorem escapeString_no_newline (s : List Char) : '\n' ∉ escapeString s := by
  unfold escapeString
  intro hmem
  rcases List.mem_flatten.mp hmem with ⟨l, hl, hc⟩
  rcases List.mem_map.mp hl with ⟨c, hcs, rfl⟩
  exact escapeChar_no_newline c hc

theorem joinCommaSep_no_newline (parts : List (List Char))
    (h : ∀ p ∈ parts, '\n' ∉ p) : '\n' ∉ joinCommaSep parts := by
  induction parts with
  | nil => exact List.not_mem_nil _
  | cons p rest ih =>
    cases rest with
    | nil => simpa [joinCommaSep] using h p (by simp)
    | cons q rest' =>
      rw [show joinCommaSep (p :: q :: rest')
          = p ++ ',' :: ' ' :: joinCommaSep (q :: rest') from rfl]
      intro hmem
      rcases List.mem_append.mp hmem with h1 | h1
      · exact h p (by simp) h1
      · rcases List.mem_cons.mp h1 with h2 | h2
        · exact absurd h2 (by decide)
        · rcases List.mem_cons.mp h2 with h3 | h3
          · exact absurd h3 (by decide)
          · exact ih (fun r hr => h r (List.mem_cons_of_mem _ hr)) h3

theorem dumps_no_newline (v : JValue) : '\n' ∉ dumps v := by
  induction v using dumps.induct with
  | case1 => simp only [dumps]; decide
  | case2 => simp only [dumps]; decide
  | case3 => simp only [dumps]; decide
  | case4 n => simp only [dumps]; exact intRepr_no_newline n
  | case5 s =>
    simp only [dumps]
    intro hmem
    rcases List.mem_cons.mp hmem with h1 | h1
    · exact absurd h1 (by decide)
    · rcases List.mem_append.mp h1 with h2 | h2
      · exact escapeString_no_newline s h2
      · exact absurd h2 (by decide)
  | case6 elems ih =>
    simp only [dumps]
    intro hmem
    rcases List.mem_cons.mp hmem with h1 | h1
    · exact absurd h1 (by decide)
    · rcases List.mem_append.mp h1 with h2 | h2
      · refine joinCommaSep_no_newline _ ?_ h2
        intro p hp
        rcases List.mem_map.mp hp with ⟨x, hx, rfl⟩
        exact ih x
      · exact absurd h2 (by decide)
  | case7 fields ih =>
    simp only [dumps]
    intro hmem
    rcases List.mem_cons.mp hmem with h1 | h1
    · exact absurd h1 (by decide)
    · rcases List.mem_append.mp h1 with h2 | h2
      · refine joinCommaSep_no_newline _ ?_ h2
        intro p hp
        rcases List.mem_map.mp hp with ⟨x, hx, rfl⟩
        intro hc
        rcases List.mem_cons.mp hc with g1 | g1
        · exact absurd g1 (by decide)
        · rcases List.mem_append.mp g1 with g2 | g2
          · exact escapeString_no_newline _ g2
          · rcases List.mem_cons.mp g2 with g3 | g3
            · exact absurd g3 (by decide)
            · rcases List.mem_cons.mp g3 with g4 | g4
              · exact absurd g4 (by decide)
              · rcases List.mem_cons.mp g4 with g5 | g5
                · exact absurd g5 (by decide)
                · exact ih x g5
      · exact absurd h2 (by decide)

/-- The lines of a text file in the usual sense: maximal `'\n'`-free runs,
the final newline (when present) terminating the last line. -/
def fileLines : List Char → List (List Char)
  | [] => []
  | c :: rest =>
    if c = '\n' then [] :: fileLines rest
    else
      match fileLines rest with
      | [] => [[c]]
      | l :: ls => (c :: l) :: ls

theorem fileLines_line_append (l rest : List Char) (hl : '\n' ∉ l) :
    fileLines (l ++ '\n' :: rest) = l :: fileLines rest := by
  induction l with
  | nil => simp [fileLines]
  | cons c l ih =>
    have hc : c ≠ '\n' := fun h => hl (h ▸ List.mem_cons_self c l)
    have hl' : '\n' ∉ l := fun h => hl (List.mem_cons_of_mem c h)
    rw [List.cons_append]
    simp only [fileLines]
    rw [if_neg hc, ih hl']

/-- `JSONLStorageBackend.store`: the file is opened with mode `"a"`, so the
previous contents stay in place and `json.dumps(event) + "\n"` is appended
for each event of the batch, in order. -/
def JSONLStorageBackend.store (fileContents : List Char) (events : List JValue) :
    List Char :=
  fileContents ++ (events.map fun e => dumps e ++ ['\n']).flatten

/-- C7: for the append-only JSONL backend, `store([e1, e2])` followed by
`store([e3])` appends to the existing contents rather than truncating them
(the previous contents survive as an untouched front segment), and — starting
from an empty file — produces a file with exactly 3 lines, each line being
the JSON serialization of one event, in call order. -/
theorem C7_jsonl_append_lines (f : List Char) (e1 e2 e3 : JValue) :
    JSONLStorageBackend.store (JSONLStorageBackend.store f [e1, e2]) [e3]
      = f ++ (dumps e1 ++ '\n' :: (dumps e2 ++ '\n' :: (dumps e3 ++ ['\n']))) ∧
    fileLines (JSONLStorageBackend.store (JSONLStorageBackend.store [] [e1, e2]) [e3])
      = [dumps e1, dumps e2, dumps e3] := by
  have hstore : ∀ g : List Char,
      JSONLStorageBackend.store (JSONLStorageBackend.store g [e1, e2]) [e3]
        = g ++ (dumps e1 ++ '\n' :: (dumps e2 ++ '\n' :: (dumps e3 ++ ['\n']))) := by
    intro g
    simp [JSONLStorageBackend.store]
  refine ⟨hstore f, ?_⟩
  rw [hstore []]
  simp only [List.nil_append]
  rw [fileLines_line_append _ _ (dumps_no_newline e1)]
  rw [fileLines_line_append _ _ (dumps_no_newline e2)]
  rw [show dumps e3 ++ ['\n'] = dumps e3 ++ '\n' :: [] from rfl]
  rw [fileLines_line_append _ _ (dumps_no_newline e3)]
  rfl

/-! ## Log schema (log_schema.py)

`create_log_event` builds the `LogEvent` dataclass.  The process-dependent
inputs (`uuid.uuid4()`, `datetime.now().isoformat()`, `get_system_info()`)
are passed in as parameters of the embedding; floats (execution time in
seconds) are idealized as rationals; argument/return payloads are kept as
opaque strings. -/

/-- `LogLevel` enum. -/
inductive LogLevel where
  | info
  | warning
  | error
  | debug
  deriving DecidableEq

/-- `FunctionType` enum. -/
inductive FunctionType where
  | sync
  | async
  | generator
  | coroutine
  deriving DecidableEq

/-- `ErrorInfo` dataclass. -/
structure ErrorInfo where
  error_type : String
  error_message : String
  error_code : Option String
  stack_trace : Option String
  severity : String
  recoverable : Bool
  deriving DecidableEq

/-- `PerformanceMetrics` dataclass. -/
structure PerformanceMetrics where
  execution_time_ms : Rat
  memory_delta_mb : Option Rat
  cpu_time_ms : Option Rat
  io_operations : Option Nat
  network_calls : Option Nat
  deriving DecidableEq

/-- `SystemInfo` dataclass (filled by `get_system_info()` from the host
environment, so it is an input of the embedding). -/
structure SystemInfo where
  platform : String
  python_version : String
  hostname : String
  process_id : Nat
  thread_id : Nat
  memory_usage_mb : Option Rat
  cpu_usage_percent : Option Rat
  deriving DecidableEq

/-- A raised Python exception as `create_log_event` observes it:
`type(exception).__name__`, `str(exception)`, and the formatted traceback
string. -/
structure PyException where
  typeName : String
  message : String
  formattedTraceback : String
  deriving DecidableEq

/-- The `LogEvent` dataclass. -/
structure LogEvent where
  event_id : String
  timestamp : String
  function_name : String
  function_type : FunctionType
  args : List String
  kwargs : List (String × String)
  is_success : Bool
  log_level : LogLevel
  performance : PerformanceMetrics
  system_info : SystemInfo
  user_api_key : Option String
  session_id : Option String
  module_name : Option String
  class_name : Option String
  file_path : Option String
  line_number : Option Nat
  return_value : Option String
  exception : Option ErrorInfo
  tags : Option (List (String × String))
  custom_fields : Option (List (String × String))
  correlation_id : Option String
  parent_event_id : Option String
  batch_id : Option String
  batch_size : Option Nat
  batch_position : Option Nat
  execution_category : Option String
  business_value : Option String
  user_impact : Option String
  cost_estimate : Option Rat
  data_sensitivity : Option String
  compliance_tags : Option (List String)
  alert_level : Option String
  alert_message : Option String
  alert_sent : Bool
  schema_version : String
  tracker_version : Option String
  deriving DecidableEq

/-- `get_performance_metrics`: seconds to milliseconds, extended metrics
absent. -/
def get_performance_metrics (execution_time : Rat) : PerformanceMetrics :=
  { execution_time_ms := execution_time * 1000
    memory_delta_mb := none
    cpu_time_ms := none
    io_operations := none
    network_calls := none }

/-- `determine_log_level`. -/
def determine_log_level (exception : Option PyException) (execution_time : Rat) :
    LogLevel :=
  match exception with
  | some _ => LogLevel.error
  | none => if execution_time > 1 then LogLevel.warning else LogLevel.info

/-- `determine_function_type`. -/
def determine_function_type (is_async : Bool) : FunctionType :=
  if is_async then FunctionType.async else FunctionType.sync

/-- Python's `str.lower()` on the character list. -/
def lowerChars (s : String) : List Char := s.data.map Char.toLower

/-- `any(keyword in name_lower for keyword in [...])`. -/
def containsAny (hay : List Char) (keywords : List String) : Bool :=
  keywords.any fun kw => decide (kw.data <:+: hay)

/-- `determine_execution_category` (the `module_lower` binding of the source
is computed and, as in the source, never used). -/
def determine_execution_category (function_name : String)
    (module_name : Option String) : Option String :=
  let name_lower := lowerChars function_name
  let _module_lower := lowerChars (module_name.getD "")
  if containsAny name_lower
      ["db_", "database", "query", "sql", "select", "insert", "update", "delete"] then
    some "database"
  else if containsAny name_lower
      ["api_", "http", "request", "post", "get", "put", "delete", "fetch"] then
    some "api"
  else if containsAny name_lower
      ["file_", "read", "write", "save", "load", "upload", "download"] then
    some "file_io"
  else if containsAny name_lower
      ["calculate", "compute", "process", "analyze", "transform"] then
    some "computation"
  else if containsAny name_lower
      ["network", "socket", "connect", "send", "receive"] then
    some "network"
  else
    some "general"

/-- `determine_business_value`. -/
def determine_business_value (_function_name : String) (execution_time : Rat)
    (exception : Option PyException) : Option String :=
  match exception with
  | some _ => some "critical"
  | none =>
    if execution_time > 5 then some "important"
    else if execution_time > 1 then some "routine"
    else some "routine"

/-- `create_log_event`: defaults the execution time to 0, derives
`is_success` from the absence of an exception, builds `ErrorInfo` from a
supplied exception (type name, message, formatted traceback), and fills the
remaining fields exactly as the source constructor does (dataclass defaults
for the fields the constructor leaves out). -/
def create_log_event (event_id timestamp : String) (system_info : SystemInfo)
    (func_name : String) (args : List String) (kwargs : List (String × String))
    (return_value : Option String) (exception : Option PyException)
    (execution_time : Option Rat) (is_async : Bool)
    (user_api_key session_id module_name class_name file_path : Option String)
    (line_number : Option Nat)
    (tags custom_fields : Option (List (String × String)))
    (correlation_id parent_event_id : Option String) : LogEvent :=
  let execution_time := execution_time.getD 0
  let is_success := exception.isNone
  let error_info : Option ErrorInfo :=
    match exception with
    | none => none
    | some exc =>
      some { error_type := exc.typeName
             error_message := exc.message
             error_code := none
             stack_trace := some exc.formattedTraceback
             severity := "error"
             recoverable := true }
  { event_id := event_id
    timestamp := timestamp
    function_name := func_name
    function_type := determine_function_type is_async
    args := args
    kwargs := kwargs
    is_success := is_success
    log_level := determine_log_level exception execution_time
    performance := get_performance_metrics execution_time
    system_info := system_info
    user_api_key := user_api_key
    session_id := session_id
    module_name := module_name
    class_name := class_name
    file_path := file_path
    line_number := line_number
    return_value := return_value
    exception := error_info
    tags := tags
    custom_fields := custom_fields
    correlation_id := correlation_id
    parent_event_id := parent_event_id
    batch_id := none
    batch_size := none
    batch_position := none
    execution_category := determine_execution_category func_name module_name
    business_value := determine_business_value func_name execution_time exception
    user_impact := some "medium"
    cost_estimate := none
    data_sensitivity := some "internal"
    compliance_tags := some []
    alert_level := some "none"
    alert_message := none
    alert_sent := false
    schema_version := "1.0.0"
    tracker_version := some "0.1.0" }

/-- C8: for every event produced by `create_log_event`, `is_success` holds
iff the `exception` error-info field is absent; and whenever an exception is
supplied, `is_success` is false and the field carries an `ErrorInfo` with
the exception's type name and message (plus the formatted stack trace and
the constant severity/recoverable defaults). -/
theorem C8_success_invariant (eid ts : String) (si : SystemInfo) (fn : String)
    (ar : List String) (kw : List (String × String)) (rv : Option String)
    (exc : Option PyException) (et : Option Rat) (ia : Bool)
    (uak sid mn cn fp : Option String) (ln : Option Nat)
    (tg cf : Option (List (String × String))) (cid pid : Option String) :
    ((create_log_event eid ts si fn ar kw rv exc et ia uak sid mn cn fp ln
        tg cf cid pid).is_success = true ↔
      (create_log_event eid ts si fn ar kw rv exc et ia uak sid mn cn fp ln
        tg cf cid pid).exception = none) ∧
    (∀ e, exc = some e →
      (create_log_event eid ts si fn ar kw rv exc et ia uak sid mn cn fp ln
        tg cf cid pid).is_success = false ∧
      (create_log_event eid ts si fn ar kw rv exc et ia uak sid mn cn fp ln
        tg cf cid pid).exception
        = some { error_type := e.typeName
                 error_message := e.message
                 error_code := none
                 stack_trace := some e.formattedTraceback
                 severity := "error"
                 recoverable := true }) := by
  cases exc with
  | none =>
    refine ⟨by simp [create_log_event], ?_⟩
    intro e he
    exact Option.noConfusion he
  | some e0 =>
    refine ⟨by simp [create_log_event], ?_⟩
    intro e he
    cases Option.some.injEq e0 e ▸ he
    exact ⟨by simp [create_log_event], by simp [create_log_event]⟩

theorem C8_success_invariant_witness :
    (create_log_event "id-1" "2026-01-01T00:00:00" ⟨"linux", "3.12", "host", 1, 1, none, none⟩
        "f" [] [] none (some ⟨"ValueError", "bad value", "Traceback"⟩) none false
        none none none none none none none none none none).is_success = false :=
  ((C8_success_invariant "id-1" "2026-01-01T00:00:00" ⟨"linux", "3.12", "host", 1, 1, none, none⟩
      "f" [] [] none (some ⟨"ValueError", "bad value", "Traceback"⟩) none false
      none none none none none none none none none none).2
    ⟨"ValueError", "bad value", "Traceback"⟩ rfl).1

/-! ## The track decorator (tracker.py)

`sync_wrapper` runs the tracked function and the `_log_function_call`
invocation inside one `try` block:

```
try:
    result = func(*args, **kwargs)
    _log_function_call(..., return_value=result, ...)
    return result
except Exception as e:
    _log_function_call(..., exception=e, ...)
    raise
```

The embedding abstracts the tracked call into its outcome and the whole
telemetry path (`_log_function_call`, which performs `create_event` and
`EventQueue.put` with no exception handling of its own) into a function from
the logged exception (`none` on the success path) to `none` (returned
normally) or `some e` (the telemetry path itself raised `e`). -/

/-- Outcome of a Python call: a returned value or a raised exception. -/
inductive CallOutcome (ε ρ : Type) where
  | ret (v : ρ)
  | exn (e : ε)
  deriving DecidableEq

/-- `sync_wrapper` of the `track` decorator, with the tracked function
abstracted into its outcome `funcOutcome` and the telemetry path into
`logCall` (argument: the exception being logged, `none` on the success path;
result: `some e` when `_log_function_call` itself raises `e`).  Control flow
is translated line by line: a telemetry exception on the success path is
caught by the `except` branch, logged, and re-raised by the bare `raise`;
a telemetry exception inside the `except` branch replaces the active
exception. -/
def sync_wrapper {ε ρ : Type} (funcOutcome : CallOutcome ε ρ)
    (logCall : Option ε → Option ε) : CallOutcome ε ρ :=
  match funcOutcome with
  | CallOutcome.ret v =>
    match logCall none with
    | none => CallOutcome.ret v
    | some eLog =>
      match logCall (some eLog) with
      | none => CallOutcome.exn eLog
      | some eLog2 => CallOutcome.exn eLog2
  | CallOutcome.exn e =>
    match logCall (some e) with
    | none => CallOutcome.exn e
    | some eLog2 => CallOutcome.exn eLog2

/-- When the telemetry path never raises, the wrapper is outcome-transparent
(the guarantee C1 asserts unconditionally holds only in this case). -/
theorem sync_wrapper_transparent_of_log_ok {ε ρ : Type}
    (funcOutcome : CallOutcome ε ρ) (logCall : Option ε → Option ε)
    (h : ∀ x, logCall x = none) :
    sync_wrapper funcOutcome logCall = funcOutcome := by
  cases funcOutcome with
  | ret v => simp [sync_wrapper, h]
  | exn e => simp [sync_wrapper, h]

theorem sync_wrapper_transparent_of_log_ok_witness :
    sync_wrapper (CallOutcome.ret (ε := String) (42 : Nat)) (fun _ => none)
      = CallOutcome.ret 42 :=
  sync_wrapper_transparent_of_log_ok (CallOutcome.ret 42) (fun _ => none)
    (fun _ => rfl)

/-- C1 is violated by the code: there is no handler around
`_log_function_call`, so when the tracked function returns 42 but the
telemetry path (event construction or enqueueing) raises, the wrapper's own
`except` branch catches the telemetry exception and re-raises it - the
caller receives the telemetry exception `"boom"` instead of the return
value 42; likewise a telemetry failure while logging a tracked-function
exception `"orig"` masks it with `"boom"`. -/
theorem C1_logging_failure_escapes :
    sync_wrapper (CallOutcome.ret (ε := String) (42 : Nat)) (fun _ => some "boom")
      = CallOutcome.exn "boom" ∧
    sync_wrapper (CallOutcome.ret (ε := String) (42 : Nat)) (fun _ => some "boom")
      ≠ CallOutcome.ret 42 ∧
    sync_wrapper (CallOutcome.exn (ρ := Nat) "orig") (fun _ => some "boom")
      = CallOutcome.exn "boom" := by
  refine ⟨rfl, ?_, rfl⟩
  intro h
  exact CallOutcome.noConfusion h
